import Mathlib

/-!
Verification development for the InstGen-AI generation core
(`services/geminiService.ts`, most complete variant, plus the watermark
helper in `App.tsx`).

The TypeScript functions are shallowly embedded as pure Lean functions.
Network effects are captured by an explicit oracle environment (`Env`)
giving the response of each external service, and by an explicit trace
state (`St`) recording, in order, every network request issued, every
prompt-repair invocation and every timed wait.  JavaScript exceptions are
embedded as `Except JsError` values; `catch` blocks become matches on the
`Except.error` constructor.
-/

namespace InstGen

/-- Characters treated as whitespace by the embedding of JavaScript
`String.prototype.trim` (the ASCII whitespace characters; credential and
prompt strings in the repository are ASCII). -/
def isJsSpace (c : Char) : Bool :=
  c == ' ' || c == '\t' || c == '\n' || c == '\r' || c == '\x0b' || c == '\x0c'

/-- Embedding of JavaScript `s.trim()`: drop leading and trailing
whitespace characters. -/
def jsTrim (s : String) : String :=
  String.mk (((s.data.dropWhile isJsSpace).reverse.dropWhile isJsSpace).reverse)

/-- Does the character list start with the given pattern list? -/
def charsStartWith : List Char → List Char → Bool
  | _, [] => true
  | [], _ :: _ => false
  | a :: as, b :: bs => a == b && charsStartWith as bs

/-- Does the character list contain the given pattern list as a contiguous
sublist?  Embedding of JavaScript `String.prototype.includes`. -/
def charsContain : List Char → List Char → Bool
  | [], needle => needle.isEmpty
  | a :: t, needle => charsStartWith (a :: t) needle || charsContain t needle

/-- Embedding of JavaScript `s.includes(sub)`. -/
def jsIncludes (s sub : String) : Bool :=
  charsContain s.data sub.data

/-- Embedding of JavaScript `s.startsWith(sub)`. -/
def jsStartsWith (s sub : String) : Bool :=
  charsStartWith s.data sub.data

/-- Aspect ratios selectable in the UI (`types.ts`). -/
inductive AspectRatio
  | r1x1
  | r3x4
  | r9x16
deriving DecidableEq

/-- Visual styles selectable in the UI (`ImageStyle` enum in `types.ts`). -/
inductive ImageStyle
  | photorealistic
  | cinematic
  | anime
  | digitalArt
  | vintage
  | minimalist
  | impressionism
  | surrealism
  | abstract
  | none
deriving DecidableEq

/-- String value of each `ImageStyle` enum member, as in `types.ts`. -/
def ImageStyle.text : ImageStyle → String
  | ImageStyle.photorealistic => "Photorealistic"
  | ImageStyle.cinematic => "Cinematic"
  | ImageStyle.anime => "Anime"
  | ImageStyle.digitalArt => "Digital Art"
  | ImageStyle.vintage => "Vintage Film"
  | ImageStyle.minimalist => "Minimalist"
  | ImageStyle.impressionism => "Impressionism"
  | ImageStyle.surrealism => "Surrealism"
  | ImageStyle.abstract => "Abstract"
  | ImageStyle.none => "None"

/-- Generation models: the two Gemini image models of `types.ts` plus the
`dall-e-3` value accepted by `generateImage`'s runtime check. -/
inductive ImageModel
  | geminiFlashImage
  | geminiProImage
  | dallE3
deriving DecidableEq

/-- Embedding of a caught JavaScript error value as read by the service
code: optional `status` and `code` fields and an optional `message`. -/
structure JsError where
  status : Option Nat
  code : Option Nat
  message : Option String
deriving DecidableEq

/-- A plain `new Error(msg)` value: only the message field is set. -/
def errMsg (s : String) : JsError :=
  JsError.mk Option.none Option.none (Option.some s)

/-- Inline data of a Gemini response part (`part.inlineData`): an optional
MIME type and the base64 payload. -/
structure InlineData where
  mimeType : Option String
  data : String
deriving DecidableEq

/-- One content part of a Gemini response. -/
structure Part where
  inlineData : Option InlineData
deriving DecidableEq

/-- Result of one Gemini `generateContent` image call: either a response
whose `candidates?.[0]?.content?.parts` optional chain yields the given
value, or a thrown error. -/
inductive GeminiResult
  | ok (parts : Option (List Part))
  | err (e : JsError)

/-- Result of one Gemini `generateContent` text call (`fixBlockedPrompt`
or `generateCaption`): either a response whose `response.text` is the
given optional string, or a thrown error. -/
inductive TextGenResult
  | ok (text : Option String)
  | err (e : JsError)

/-- The JSON body of one OpenAI images-generation request, as built by
`generateOpenAIImage`, together with the bearer token it is sent with. -/
structure OpenAiReq where
  prompt : String
  size : String
  bearer : String
deriving DecidableEq

/-- A parsed OpenAI images-generation HTTP response: the `response.ok`
flag, the optional `data.error.message` field and the optional
`data.data[0].b64_json` field. -/
structure OpenAiResp where
  ok : Bool
  errorMessage : Option String
  b64 : Option String
deriving DecidableEq

/-- Result of one OpenAI images-generation call: a parsed response, or a
thrown error (network failure in `fetch` or JSON parsing). -/
inductive OpenAiResult
  | resp (r : OpenAiResp)
  | netErr (e : JsError)

/-- Oracle environment: the behavior of the external services.  The
Gemini image oracle is indexed by the call number (position in the trace)
and the prompt sent, so successive calls with the same prompt may answer
differently, as a real network does.  The text oracles are applied to the
core prompt argument; the constant instruction template the service wraps
around it is a fixed function of that argument and is elided. -/
structure Env where
  gemini : Nat → String → GeminiResult
  fix : String → TextGenResult
  caption : String → TextGenResult
  openai : OpenAiReq → OpenAiResult

/-- Observable trace of one service invocation: every Gemini image
request (the prompt sent), every invocation of `fixBlockedPrompt` (its
prompt argument), every network request actually issued inside
`fixBlockedPrompt`, every caption request, every OpenAI request, and
every timed wait in milliseconds, each in issue order. -/
structure St where
  geminiImageCalls : List String
  fixInvocations : List String
  fixNetworkCalls : List String
  captionCalls : List String
  openAiCalls : List OpenAiReq
  waits : List Nat
deriving DecidableEq

/-- The empty trace, at entry of a service call. -/
def St.init : St :=
  St.mk [] [] [] [] [] []

/-- Message of the configuration error thrown by `getAiClient` on a
missing or blank key. -/
def missingKeyMsg : String :=
  "API Key is missing. Please provide a valid Gemini API Key."

/-- Message thrown by `generateImage` when no part of the Gemini response
carries inline image data. -/
def noImageMsg : String :=
  "No image data found in the response."

/-- Terminal rate-limit message of `generateImage`. -/
def highTrafficMsg : String :=
  "High traffic detected (Quota Exceeded). Please wait a minute before trying again."

/-- Message thrown by `generateImage` on the invalid-credential branch. -/
def invalidKeyMsg : String :=
  "API Key is invalid or missing. Please log in again."

/-- Message thrown by `generateImage` when DALL-E 3 is selected without
an OpenAI key. -/
def openAiKeyNeededMsg : String :=
  "Please enter your OpenAI API Key to use DALL-E 3."

/-- Fixed caption fallback string of `generateCaption`. -/
def captionFallback : String :=
  "Check out this AI generated image! #AI #Art"

/-- Embedding of `getAiClient`: trims the key and throws the
configuration error when the result is empty.  Construction of the
`GoogleGenAI` client object with a nonempty key is modelled as always
succeeding (the SDK constructor throws only on an absent key, which the
guard already excludes). -/
def getAiClient (apiKey : String) : Except JsError Unit :=
  if jsTrim apiKey = "" then Except.error (errMsg missingKeyMsg)
  else Except.ok Unit.unit

/-- Style prefixing in `generateImage`: `promptToSend` is the prompt with
the style text prepended when the style is not `NONE`. -/
def styledPrompt (style : ImageStyle) (prompt : String) : String :=
  if style = ImageStyle.none then prompt
  else ImageStyle.text style ++ " style. " ++ prompt

/-- Rate-limit classification in `generateImage`'s catch block:
status 429, code 429, or a truthy message containing one of the three
quota signatures. -/
def isRateLimitErr (e : JsError) : Bool :=
  e.status == Option.some 429 || e.code == Option.some 429 ||
    (match e.message with
     | Option.some m =>
       m != "" && (jsIncludes m "429" || jsIncludes m "Quota exceeded" ||
         jsIncludes m "RESOURCE_EXHAUSTED")
     | Option.none => false)

/-- Invalid-credential classification in `generateImage`'s catch block:
status 400 or a truthy message containing the key-not-found signature. -/
def isInvalidKeyErr (e : JsError) : Bool :=
  e.status == Option.some 400 ||
    (match e.message with
     | Option.some m => m != "" && jsIncludes m "API Key not found"
     | Option.none => false)

/-- Scan of the response parts in `generateImage`: the first part whose
inline data has a truthy MIME type starting with `image/` yields the data
URI built from that MIME type and payload. -/
def findImagePart : List Part → Option String
  | [] => Option.none
  | p :: ps =>
    match p.inlineData with
    | Option.some d =>
      match d.mimeType with
      | Option.some m =>
        if m != "" && jsStartsWith m "image/" then
          Option.some ("data:" ++ m ++ ";base64," ++ d.data)
        else findImagePart ps
      | Option.none => findImagePart ps
    | Option.none => findImagePart ps

/-- Image extraction over the whole optional chain
`response.candidates?.[0]?.content?.parts`: when the chain is undefined
no image is found. -/
def extractImageFromParts : Option (List Part) → Option String
  | Option.none => Option.none
  | Option.some parts => findImagePart parts

/-- Value computed by `fixBlockedPrompt`: the repaired prompt, or the
original prompt unchanged on any failure (missing key, thrown network
error, absent or blank response text). -/
def fixBlockedPromptValue (env : Env) (originalPrompt apiKey : String) : String :=
  match getAiClient apiKey with
  | Except.error _ => originalPrompt
  | Except.ok _ =>
    match env.fix originalPrompt with
    | TextGenResult.err _ => originalPrompt
    | TextGenResult.ok textOpt =>
      match textOpt with
      | Option.none => originalPrompt
      | Option.some t => if jsTrim t = "" then originalPrompt else jsTrim t

/-- Embedding of `fixBlockedPrompt` with its trace: the invocation is
recorded, and the network request is recorded exactly when the client was
obtained (nonblank key).  The function never throws to its caller. -/
def fixBlockedPrompt (env : Env) (originalPrompt apiKey : String) (s : St) :
    String × St :=
  let s1 : St := { s with fixInvocations := s.fixInvocations ++ [originalPrompt] }
  match getAiClient apiKey with
  | Except.error _ => (originalPrompt, s1)
  | Except.ok _ =>
    (fixBlockedPromptValue env originalPrompt apiKey,
      { s1 with fixNetworkCalls := s1.fixNetworkCalls ++ [originalPrompt] })

/-- DALL-E size lookup in `generateOpenAIImage`: `3:4` and `9:16` map to
the portrait size, everything else keeps the square default. -/
def dalleSize (ratio : AspectRatio) : String :=
  if ratio = AspectRatio.r3x4 ∨ ratio = AspectRatio.r9x16 then "1024x1792"
  else "1024x1024"

/-- Embedding of `generateOpenAIImage`: guard on an empty key, fixed size
lookup, one HTTP POST (recorded), then response handling — upstream error
message on a non-OK response, a distinct error when the base64 field is
absent or empty, and otherwise a PNG data URI built from the payload. -/
def generateOpenAIImage (env : Env) (prompt : String) (ratio : AspectRatio)
    (openAiKey : String) (s : St) : Except JsError String × St :=
  if openAiKey = "" then
    (Except.error (errMsg "OpenAI API Key is required for DALL-E 3 generation."), s)
  else
    let req : OpenAiReq := OpenAiReq.mk prompt (dalleSize ratio) (jsTrim openAiKey)
    let s1 : St := { s with openAiCalls := s.openAiCalls ++ [req] }
    match env.openai req with
    | OpenAiResult.netErr e => (Except.error e, s1)
    | OpenAiResult.resp r =>
      if r.ok then
        match r.b64 with
        | Option.none =>
          (Except.error (errMsg "No image data returned from OpenAI."), s1)
        | Option.some b =>
          if b = "" then
            (Except.error (errMsg "No image data returned from OpenAI."), s1)
          else (Except.ok ("data:image/png;base64," ++ b), s1)
      else
        (Except.error
          (errMsg ("OpenAI Error: " ++ r.errorMessage.getD "Failed to generate image with OpenAI")), s1)

/-- The try block of `generateImage`'s Gemini path: obtain the client
(throws on a blank key), issue one image request (recorded, indexed by
its position in the trace), then scan the parts; a response with no image
part throws the no-image error inside the same try. -/
def geminiAttempt (env : Env) (promptToSend validApiKey : String) (s : St) :
    Except JsError String × St :=
  match getAiClient validApiKey with
  | Except.error e => (Except.error e, s)
  | Except.ok _ =>
    let s1 : St := { s with geminiImageCalls := s.geminiImageCalls ++ [promptToSend] }
    match env.gemini s.geminiImageCalls.length promptToSend with
    | GeminiResult.err e => (Except.error e, s1)
    | GeminiResult.ok partsOpt =>
      match extractImageFromParts partsOpt with
      | Option.none => (Except.error (errMsg noImageMsg), s1)
      | Option.some img => (Except.ok img, s1)

/-- Body of `generateImage` with the `isRetry` flag encoded as fuel:
fuel `Nat.succ Nat.zero` is the first attempt (`isRetry = false`), fuel
`Nat.zero` an already-retried attempt (`isRetry = true`).  Each of the
two retry paths re-invokes the function with the fuel consumed, exactly
as the source re-invokes itself with `isRetry = true`. -/
def generateImageAux (env : Env) (prompt : String) (ratio : AspectRatio)
    (style : ImageStyle) (model : ImageModel) (apiKey : String)
    (openAiKey : Option String) (fuel : Nat) (s : St) :
    Except JsError String × St :=
  let validApiKey := jsTrim apiKey
  let promptToSend := styledPrompt style prompt
  if model = ImageModel.dallE3 then
    match openAiKey with
    | Option.none => (Except.error (errMsg openAiKeyNeededMsg), s)
    | Option.some k =>
      if k = "" then (Except.error (errMsg openAiKeyNeededMsg), s)
      else generateOpenAIImage env promptToSend ratio k s
  else
    match geminiAttempt env promptToSend validApiKey s with
    | (Except.ok img, s1) => (Except.ok img, s1)
    | (Except.error e, s1) =>
      if isRateLimitErr e then
        match fuel with
        | Nat.succ f =>
          generateImageAux env prompt ratio style model validApiKey openAiKey f
            { s1 with waits := s1.waits ++ [5000] }
        | Nat.zero => (Except.error (errMsg highTrafficMsg), s1)
      else if isInvalidKeyErr e then
        (Except.error (errMsg invalidKeyMsg), s1)
      else
        match fuel with
        | Nat.succ f =>
          match fixBlockedPrompt env prompt validApiKey s1 with
          | (fixedPrompt, s2) =>
            if fixedPrompt ≠ prompt then
              generateImageAux env fixedPrompt ratio style model validApiKey openAiKey f s2
            else (Except.error e, s2)
        | Nat.zero => (Except.error e, s1)

/-- Embedding of `generateImage` with the source's `isRetry : Bool`
signature; termination of the source's self-recursion is witnessed by the
totality of this definition. -/
def generateImage (env : Env) (prompt : String) (ratio : AspectRatio)
    (style : ImageStyle) (model : ImageModel) (apiKey : String)
    (isRetry : Bool) (openAiKey : Option String) (s : St) :
    Except JsError String × St :=
  generateImageAux env prompt ratio style model apiKey openAiKey
    (bif isRetry then Nat.zero else Nat.succ Nat.zero) s

/-- Embedding of `generateCaption`: one text request under a try whose
catch always degrades to the fixed fallback (the rate-limit test in the
catch selects between two identical fallback returns); an absent or empty
response text also falls back, otherwise the trimmed text is returned.
The return type `String` (not `Except`) embeds the fact that every source
path returns normally — the function never throws. -/
def generateCaption (env : Env) (imagePrompt apiKey : String) (s : St) :
    String × St :=
  match getAiClient apiKey with
  | Except.error e =>
    if e.status == Option.some 429 ||
        (match e.message with
         | Option.some m => m != "" && jsIncludes m "429"
         | Option.none => false) then
      (captionFallback, s)
    else (captionFallback, s)
  | Except.ok _ =>
    let s1 : St := { s with captionCalls := s.captionCalls ++ [imagePrompt] }
    match env.caption imagePrompt with
    | TextGenResult.err e =>
      if e.status == Option.some 429 ||
          (match e.message with
           | Option.some m => m != "" && jsIncludes m "429"
           | Option.none => false) then
        (captionFallback, s1)
      else (captionFallback, s1)
    | TextGenResult.ok textOpt =>
      match textOpt with
      | Option.none => (captionFallback, s1)
      | Option.some t => if t = "" then (captionFallback, s1) else (jsTrim t, s1)

/-- Dimensions of a decoded image surface. -/
structure Img where
  width : Nat
  height : Nat
deriving DecidableEq

/-- Browser environment of `applyWatermark` in `App.tsx`: image decoding
(`Image.onload` versus `onerror`), availability of the 2d canvas context,
and the canvas re-encoding of the composited surface.  The deterministic
text-drawing geometry (font size, padding) is a fixed function of the
image dimensions and the text, folded into `render`. -/
structure WmEnv where
  decode : String → Option Img
  ctx2dAvailable : Bool
  render : Img → String → String

/-- Embedding of `applyWatermark`: empty text returns the input
unchanged; a decode failure or a missing 2d context resolves to the
original image; otherwise the composited re-encoded image is returned. -/
def applyWatermark (env : WmEnv) (base64Image text : String) : String :=
  if text = "" then base64Image
  else
    match env.decode base64Image with
    | Option.none => base64Image
    | Option.some img =>
      if env.ctx2dAvailable then env.render img text
      else base64Image

/-- A Gemini response part carrying PNG inline data, for demonstration
oracles. -/
def partPng : Part :=
  Part.mk (Option.some (InlineData.mk (Option.some "image/png") "QUJD"))

/-- Demonstration oracle: the first Gemini image call returns a response
with no image part, the repair model proposes a different prompt, and
later image calls succeed with a PNG part. -/
def envRepair : Env :=
  Env.mk
    (fun n _ => if n = 0 then GeminiResult.ok (Option.some [])
      else GeminiResult.ok (Option.some [partPng]))
    (fun _ => TextGenResult.ok (Option.some "a calm landscape"))
    (fun _ => TextGenResult.ok (Option.some "caption"))
    (fun _ => OpenAiResult.resp (OpenAiResp.mk true Option.none (Option.some "QUJD")))

/-- Demonstration oracle: every Gemini call fails with HTTP 429 and the
OpenAI endpoint answers with a base64 payload. -/
def envRate : Env :=
  Env.mk
    (fun _ _ => GeminiResult.err (JsError.mk (Option.some 429) Option.none Option.none))
    (fun _ => TextGenResult.ok Option.none)
    (fun _ => TextGenResult.err (JsError.mk (Option.some 429) Option.none Option.none))
    (fun _ => OpenAiResult.resp (OpenAiResp.mk true Option.none (Option.some "QUJD")))

/-- Demonstration oracle: every Gemini image call fails with HTTP 400. -/
def envBadKey : Env :=
  Env.mk
    (fun _ _ => GeminiResult.err (JsError.mk (Option.some 400) Option.none Option.none))
    (fun _ => TextGenResult.ok Option.none)
    (fun _ => TextGenResult.err (errMsg "caption failed"))
    (fun _ => OpenAiResult.netErr (errMsg "network down"))

/-!
Small list and string facts used by the behavioral lemmas: `dropWhile`
glue, idempotence of `jsTrim`, and prefix facts for `jsStartsWith`.
-/

lemma dropWhile_head_neg {α : Type} {p : α → Bool} :
    ∀ {l : List α} {a : α} {t : List α}, l.dropWhile p = a :: t → p a = false := by
  intro l
  induction l with
  | nil => intro a t h; simp [List.dropWhile] at h
  | cons b bs ih =>
    intro a t h
    rw [List.dropWhile_cons] at h
    by_cases hb : p b
    · rw [if_pos hb] at h
      exact ih h
    · rw [if_neg hb] at h
      cases h
      simpa using hb

lemma dropWhile_self_eq {α : Type} {p : α → Bool} {l : List α} :
    (l.dropWhile p).dropWhile p = l.dropWhile p := by
  cases h : l.dropWhile p with
  | nil => simp
  | cons a t =>
    rw [List.dropWhile_cons]
    rw [if_neg (by simp [dropWhile_head_neg h])]

lemma dropWhile_eq_self_of_head {α : Type} {p : α → Bool} {l : List α}
    (h : ∀ a t, l = a :: t → p a = false) : l.dropWhile p = l := by
  cases l with
  | nil => simp
  | cons a t =>
    rw [List.dropWhile_cons, if_neg (by simp [h a t rfl])]

lemma trimmed_dropWhile {p : Char → Bool} (d : List Char) :
    (((d.dropWhile p).reverse.dropWhile p).reverse).dropWhile p =
      ((d.dropWhile p).reverse.dropWhile p).reverse := by
  apply dropWhile_eq_self_of_head
  intro a t hX
  have h1 : (d.dropWhile p).reverse.takeWhile p ++ (d.dropWhile p).reverse.dropWhile p
      = (d.dropWhile p).reverse := List.takeWhile_append_dropWhile p _
  have h2 := congrArg List.reverse h1
  rw [List.reverse_append, List.reverse_reverse] at h2
  rw [hX] at h2
  exact dropWhile_head_neg h2.symm

lemma jsTrim_idem (s : String) : jsTrim (jsTrim s) = jsTrim s := by
  show String.mk _ = String.mk _
  congr 1
  show ((((((s.data.dropWhile isJsSpace).reverse.dropWhile isJsSpace).reverse).dropWhile
      isJsSpace).reverse).dropWhile isJsSpace).reverse =
    ((s.data.dropWhile isJsSpace).reverse.dropWhile isJsSpace).reverse
  have h5 := trimmed_dropWhile (p := isJsSpace) s.data
  rw [h5, List.reverse_reverse, dropWhile_self_eq]

lemma charsStartWith_append (l m : List Char) : charsStartWith (l ++ m) l = true := by
  induction l with
  | nil => cases m <;> rfl
  | cons a t ih => simp [charsStartWith, ih]

lemma jsStartsWith_append (a b : String) : jsStartsWith (a ++ b) a = true := by
  show charsStartWith (a ++ b).data a.data = true
  have : (a ++ b).data = a.data ++ b.data := by
    cases a; cases b; rfl
  rw [this]
  exact charsStartWith_append a.data b.data



/-!
Behavioral lemmas about the embedded operations.
-/

lemma getAiClient_ok {k : String} (hk : jsTrim k ≠ "") :
    getAiClient k = Except.ok Unit.unit := by
  unfold getAiClient
  rw [if_neg hk]

lemma getAiClient_blank {k : String} (hk : jsTrim k = "") :
    getAiClient k = Except.error (errMsg missingKeyMsg) := by
  unfold getAiClient
  rw [if_pos hk]

lemma geminiAttempt_err {env : Env} {sp vk : String} {s : St} {e : JsError}
    (hk : jsTrim vk ≠ "")
    (h : env.gemini s.geminiImageCalls.length sp = GeminiResult.err e) :
    geminiAttempt env sp vk s =
      (Except.error e, { s with geminiImageCalls := s.geminiImageCalls ++ [sp] }) := by
  simp only [geminiAttempt, getAiClient_ok hk, h]

lemma geminiAttempt_noImage {env : Env} {sp vk : String} {s : St}
    {partsOpt : Option (List Part)} (hk : jsTrim vk ≠ "")
    (h : env.gemini s.geminiImageCalls.length sp = GeminiResult.ok partsOpt)
    (hx : extractImageFromParts partsOpt = Option.none) :
    geminiAttempt env sp vk s =
      (Except.error (errMsg noImageMsg),
        { s with geminiImageCalls := s.geminiImageCalls ++ [sp] }) := by
  simp only [geminiAttempt, getAiClient_ok hk, h, hx]

lemma geminiAttempt_blank {env : Env} {sp vk : String} {s : St}
    (hk : jsTrim vk = "") :
    geminiAttempt env sp vk s = (Except.error (errMsg missingKeyMsg), s) := by
  simp only [geminiAttempt, getAiClient_blank hk]

lemma geminiAttempt_snd (env : Env) (sp vk : String) (s : St) (hk : jsTrim vk ≠ "") :
    (geminiAttempt env sp vk s).2 =
      { s with geminiImageCalls := s.geminiImageCalls ++ [sp] } := by
  cases hg : env.gemini s.geminiImageCalls.length sp with
  | err e => simp only [geminiAttempt, getAiClient_ok hk, hg]
  | ok partsOpt =>
    cases hx : extractImageFromParts partsOpt with
    | none => simp only [geminiAttempt, getAiClient_ok hk, hg, hx]
    | some img => simp only [geminiAttempt, getAiClient_ok hk, hg, hx]

lemma geminiAttempt_state (env : Env) (sp vk : String) (s : St) :
    (geminiAttempt env sp vk s).2 = s ∨
    (geminiAttempt env sp vk s).2 =
      { s with geminiImageCalls := s.geminiImageCalls ++ [sp] } := by
  by_cases hk : jsTrim vk = ""
  · rw [geminiAttempt_blank hk]
    exact Or.inl rfl
  · exact Or.inr (geminiAttempt_snd env sp vk s hk)

lemma fixBlockedPrompt_eq (env : Env) (p k : String) (s : St) (hk : jsTrim k ≠ "") :
    fixBlockedPrompt env p k s =
      (fixBlockedPromptValue env p k,
        { s with fixInvocations := s.fixInvocations ++ [p],
                 fixNetworkCalls := s.fixNetworkCalls ++ [p] }) := by
  simp only [fixBlockedPrompt, getAiClient_ok hk]

lemma fixBlockedPrompt_blank (env : Env) (p k : String) (s : St) (hk : jsTrim k = "") :
    fixBlockedPrompt env p k s =
      (p, { s with fixInvocations := s.fixInvocations ++ [p] }) := by
  simp only [fixBlockedPrompt, getAiClient_blank hk]

lemma fixBlockedPromptValue_blank (env : Env) (p k : String) (hk : jsTrim k = "") :
    fixBlockedPromptValue env p k = p := by
  simp only [fixBlockedPromptValue, getAiClient_blank hk]

lemma fixBlockedPrompt_state (env : Env) (p k : String) (s : St) :
    ((fixBlockedPrompt env p k s).2.geminiImageCalls = s.geminiImageCalls)
    ∧ ((fixBlockedPrompt env p k s).2.openAiCalls = s.openAiCalls)
    ∧ ((fixBlockedPrompt env p k s).2.waits = s.waits)
    ∧ ((fixBlockedPrompt env p k s).2.fixInvocations = s.fixInvocations ++ [p]) := by
  by_cases hk : jsTrim k = ""
  · rw [fixBlockedPrompt_blank env p k s hk]
    exact ⟨rfl, rfl, rfl, rfl⟩
  · rw [fixBlockedPrompt_eq env p k s hk]
    exact ⟨rfl, rfl, rfl, rfl⟩

lemma generateOpenAIImage_state (env : Env) (p : String) (r : AspectRatio)
    (k : String) (s : St) :
    ((generateOpenAIImage env p r k s).2.geminiImageCalls = s.geminiImageCalls)
    ∧ ((generateOpenAIImage env p r k s).2.fixInvocations = s.fixInvocations)
    ∧ ((generateOpenAIImage env p r k s).2.waits = s.waits)
    ∧ ((generateOpenAIImage env p r k s).2.openAiCalls.length ≤ s.openAiCalls.length + 1) := by
  by_cases hk : k = ""
  · simp only [generateOpenAIImage, if_pos hk]
    exact ⟨trivial, trivial, trivial, Nat.le_succ _⟩
  · cases hw : env.openai (OpenAiReq.mk p (dalleSize r) (jsTrim k)) with
    | netErr e =>
      simp only [generateOpenAIImage, if_neg hk, hw]
      simp
    | resp resp =>
      by_cases ho : resp.ok = true
      · cases hb : resp.b64 with
        | none =>
          simp only [generateOpenAIImage, if_neg hk, hw, if_pos ho, hb]
          simp
        | some b =>
          by_cases hbe : b = ""
          · simp only [generateOpenAIImage, if_neg hk, hw, if_pos ho, hb, if_pos hbe]
            simp
          · simp only [generateOpenAIImage, if_neg hk, hw, if_pos ho, hb, if_neg hbe]
            simp
      · simp only [generateOpenAIImage, if_neg hk, hw, if_neg ho]
        simp

lemma generateImageAux_zero_gemini (env : Env) (p : String) (r : AspectRatio)
    (st : ImageStyle) (m : ImageModel) (k : String) (o : Option String) (s : St)
    (hm : m ≠ ImageModel.dallE3) (hk : jsTrim k ≠ "") :
    (generateImageAux env p r st m k o 0 s).2 =
      { s with geminiImageCalls := s.geminiImageCalls ++ [styledPrompt st p] } := by
  have hk2 : jsTrim (jsTrim k) ≠ "" := by rw [jsTrim_idem]; exact hk
  cases hg : geminiAttempt env (styledPrompt st p) (jsTrim k) s with
  | mk res s1 =>
    have hs1 : s1 = { s with geminiImageCalls := s.geminiImageCalls ++ [styledPrompt st p] } := by
      have h2 := geminiAttempt_snd env (styledPrompt st p) (jsTrim k) s hk2
      rw [hg] at h2
      exact h2
    cases res with
    | ok img =>
      simp only [generateImageAux.eq_def, if_neg hm, hg]
      exact hs1
    | error e =>
      simp only [generateImageAux.eq_def, if_neg hm, hg]
      by_cases hrl : isRateLimitErr e = true
      · simp only [if_pos hrl]
        exact hs1
      · simp only [if_neg hrl]
        by_cases hic : isInvalidKeyErr e = true
        · simp only [if_pos hic]
          exact hs1
        · simp only [if_neg hic]
          exact hs1

lemma generateImageAux_zero_state (env : Env) (p : String) (r : AspectRatio)
    (st : ImageStyle) (m : ImageModel) (k : String) (o : Option String) (s : St) :
    ((generateImageAux env p r st m k o 0 s).2.waits = s.waits)
    ∧ ((generateImageAux env p r st m k o 0 s).2.fixInvocations = s.fixInvocations)
    ∧ ((generateImageAux env p r st m k o 0 s).2.geminiImageCalls.length
        + (generateImageAux env p r st m k o 0 s).2.openAiCalls.length
        ≤ s.geminiImageCalls.length + s.openAiCalls.length + 1) := by
  by_cases hm : m = ImageModel.dallE3
  · subst hm
    cases o with
    | none =>
      refine ⟨?_, ?_, ?_⟩ <;> simp [generateImageAux.eq_def]
    | some kk =>
      by_cases hkk : kk = ""
      · subst hkk
        refine ⟨?_, ?_, ?_⟩ <;> simp [generateImageAux.eq_def]
      · obtain ⟨h1, h2, h3, h4⟩ :=
          generateOpenAIImage_state env (styledPrompt st p) r kk s
        refine ⟨?_, ?_, ?_⟩ <;> (simp [generateImageAux.eq_def, hkk, h1, h2, h3]; try omega)
  · cases hg : geminiAttempt env (styledPrompt st p) (jsTrim k) s with
    | mk res s1 =>
      have hstate : s1 = s ∨ s1 =
          { s with geminiImageCalls := s.geminiImageCalls ++ [styledPrompt st p] } := by
        have h0 := geminiAttempt_state env (styledPrompt st p) (jsTrim k) s
        rw [hg] at h0
        simpa using h0
      have hw : s1.waits = s.waits := by
        rcases hstate with h | h <;> rw [h]
      have hf : s1.fixInvocations = s.fixInvocations := by
        rcases hstate with h | h <;> rw [h]
      have hlen : s1.geminiImageCalls.length + s1.openAiCalls.length
          ≤ s.geminiImageCalls.length + s.openAiCalls.length + 1 := by
        rcases hstate with h | h
        · rw [h]
          omega
        · rw [h]
          simp only [List.length_append, List.length_cons, List.length_nil]
          omega
      cases res with
      | ok img =>
        simp only [generateImageAux.eq_def, if_neg hm, hg]
        exact ⟨hw, hf, hlen⟩
      | error e =>
        simp only [generateImageAux.eq_def, if_neg hm, hg]
        by_cases hrl : isRateLimitErr e = true
        · simp only [if_pos hrl]
          exact ⟨hw, hf, hlen⟩
        · simp only [if_neg hrl]
          by_cases hic : isInvalidKeyErr e = true
          · simp only [if_pos hic]
            exact ⟨hw, hf, hlen⟩
          · simp only [if_neg hic]
            exact ⟨hw, hf, hlen⟩

lemma generateImageAux_one_state (env : Env) (p : String) (r : AspectRatio)
    (st : ImageStyle) (m : ImageModel) (k : String) (o : Option String) :
    ((generateImageAux env p r st m k o (Nat.succ Nat.zero) St.init).2.geminiImageCalls.length
      + (generateImageAux env p r st m k o (Nat.succ Nat.zero) St.init).2.openAiCalls.length ≤ 2)
    ∧ ((generateImageAux env p r st m k o (Nat.succ Nat.zero) St.init).2.waits = []
      ∨ (generateImageAux env p r st m k o (Nat.succ Nat.zero) St.init).2.fixInvocations = []) := by
  by_cases hm : m = ImageModel.dallE3
  · subst hm
    cases o with
    | none =>
      refine ⟨?_, Or.inl ?_⟩ <;> simp [generateImageAux.eq_def, St.init]
    | some kk =>
      by_cases hkk : kk = ""
      · subst hkk
        refine ⟨?_, Or.inl ?_⟩ <;> simp [generateImageAux.eq_def, St.init]
      · obtain ⟨h1, h2, h3, h4⟩ :=
          generateOpenAIImage_state env (styledPrompt st p) r kk St.init
        have hg0 : (generateOpenAIImage env (styledPrompt st p) r kk
            St.init).2.geminiImageCalls.length = 0 := by
          rw [h1]
          rfl
        have ho1 : (generateOpenAIImage env (styledPrompt st p) r kk
            St.init).2.openAiCalls.length ≤ 1 := by
          simpa [St.init] using h4
        refine ⟨?_, Or.inl ?_⟩
        · simp only [generateImageAux.eq_def]
          simp [hkk]
          omega
        · simp only [generateImageAux.eq_def]
          simp [hkk, h3]
          rfl
  · cases hg : geminiAttempt env (styledPrompt st p) (jsTrim k) St.init with
    | mk res s1 =>
      have hstate : s1 = St.init ∨ s1 = St.mk [styledPrompt st p] [] [] [] [] [] := by
        have h0 := geminiAttempt_state env (styledPrompt st p) (jsTrim k) St.init
        rw [hg] at h0
        simpa [St.init] using h0
      have hs1w : s1.waits = [] := by
        rcases hstate with h | h <;> simp [h, St.init]
      have hs1f : s1.fixInvocations = [] := by
        rcases hstate with h | h <;> simp [h, St.init]
      have hs1len : s1.geminiImageCalls.length + s1.openAiCalls.length ≤ 1 := by
        rcases hstate with h | h <;> simp [h, St.init]
      cases res with
      | ok img =>
        rw [generateImageAux.eq_def]
        simp only [if_neg hm, hg]
        exact ⟨by omega, Or.inl hs1w⟩
      | error e =>
        rw [generateImageAux.eq_def]
        simp only [if_neg hm, hg]
        by_cases hrl : isRateLimitErr e = true
        · simp only [if_pos hrl]
          obtain ⟨hw0, hf0, hl0⟩ := generateImageAux_zero_state env p r st m
            (jsTrim k) o { s1 with waits := s1.waits ++ [5000] }
          have hc : ({ s1 with waits := s1.waits ++ [5000] } : St).geminiImageCalls.length
              = s1.geminiImageCalls.length := rfl
          have hd : ({ s1 with waits := s1.waits ++ [5000] } : St).openAiCalls.length
              = s1.openAiCalls.length := rfl
          constructor
          · omega
          · refine Or.inr ?_
            rw [hf0]
            exact hs1f
        · simp only [if_neg hrl]
          by_cases hic : isInvalidKeyErr e = true
          · simp only [if_pos hic]
            exact ⟨by omega, Or.inl hs1w⟩
          · simp only [if_neg hic]
            cases hfix : fixBlockedPrompt env p (jsTrim k) s1 with
            | mk fp s2 =>
              obtain ⟨hg2, ho2, hw2, hf2⟩ := fixBlockedPrompt_state env p (jsTrim k) s1
              rw [hfix] at hg2 ho2 hw2 hf2
              simp only [hfix]
              by_cases hne : fp ≠ p
              · simp only [if_pos hne]
                obtain ⟨hw0, hf0, hl0⟩ := generateImageAux_zero_state env fp r st m
                  (jsTrim k) o s2
                constructor
                · have hgl : s2.geminiImageCalls.length = s1.geminiImageCalls.length := by
                    rw [hg2]
                  have hol : s2.openAiCalls.length = s1.openAiCalls.length := by
                    rw [ho2]
                  omega
                · refine Or.inl ?_
                  rw [hw0, hw2]
                  exact hs1w
              · simp only [if_neg hne]
                refine ⟨?_, Or.inl ?_⟩
                · have hgl : s2.geminiImageCalls.length = s1.geminiImageCalls.length := by
                    rw [hg2]
                  have hol : s2.openAiCalls.length = s1.openAiCalls.length := by
                    rw [ho2]
                  omega
                · rw [hw2]
                  exact hs1w

/-- C3: starting from a non-retry invocation, `generateImage` performs at
most two provider attempts in the whole call chain, and it never takes
both the rate-limit wait-and-retry and the prompt-repair retry in the
same chain; a retried invocation (`isRetry = true`) performs at most one
attempt, never waits and never invokes the prompt repair, hence retry
depth is bounded by one extra attempt (termination itself is witnessed by
the totality of the embedding). -/
theorem generateImage_retry_depth_bounded (env : Env) (prompt : String)
    (ratio : AspectRatio) (style : ImageStyle) (model : ImageModel)
    (apiKey : String) (openAiKey : Option String) :
    ((generateImage env prompt ratio style model apiKey false openAiKey St.init).2.geminiImageCalls.length
      + (generateImage env prompt ratio style model apiKey false openAiKey St.init).2.openAiCalls.length ≤ 2)
    ∧ ((generateImage env prompt ratio style model apiKey false openAiKey St.init).2.waits = []
      ∨ (generateImage env prompt ratio style model apiKey false openAiKey St.init).2.fixInvocations = [])
    ∧ ((generateImage env prompt ratio style model apiKey true openAiKey St.init).2.geminiImageCalls.length
      + (generateImage env prompt ratio style model apiKey true openAiKey St.init).2.openAiCalls.length ≤ 1)
    ∧ ((generateImage env prompt ratio style model apiKey true openAiKey St.init).2.waits = [])
    ∧ ((generateImage env prompt ratio style model apiKey true openAiKey St.init).2.fixInvocations = []) := by
  have hfalse : generateImage env prompt ratio style model apiKey false openAiKey St.init
      = generateImageAux env prompt ratio style model apiKey openAiKey (Nat.succ Nat.zero) St.init := rfl
  have htrue : generateImage env prompt ratio style model apiKey true openAiKey St.init
      = generateImageAux env prompt ratio style model apiKey openAiKey 0 St.init := rfl
  obtain ⟨h1, h2⟩ := generateImageAux_one_state env prompt ratio style model apiKey openAiKey
  obtain ⟨hz1, hz2, hz3⟩ := generateImageAux_zero_state env prompt ratio style model apiKey openAiKey St.init
  rw [hfalse, htrue]
  refine ⟨h1, h2, ?_, ?_, ?_⟩
  · simpa [St.init] using hz3
  · simpa [St.init] using hz1
  · simpa [St.init] using hz2

/-- C2: a Gemini-family request whose first attempt fails with a
rate-limit-classified error waits the fixed 5000 ms backoff and retries
exactly once with the identical styled prompt; when the retry fails with
a rate-limit-classified error as well, the call ends with the terminal
high-traffic error and no further attempt, wait or prompt repair. -/
theorem generateImage_rate_limited (env : Env) (prompt : String) (ratio : AspectRatio)
    (style : ImageStyle) (model : ImageModel) (apiKey : String) (openAiKey : Option String)
    (e1 e2 : JsError)
    (hm : model ≠ ImageModel.dallE3)
    (hk : jsTrim apiKey ≠ "")
    (h1 : env.gemini 0 (styledPrompt style prompt) = GeminiResult.err e1)
    (hrl1 : isRateLimitErr e1 = true)
    (h2 : env.gemini 1 (styledPrompt style prompt) = GeminiResult.err e2)
    (hrl2 : isRateLimitErr e2 = true) :
    generateImage env prompt ratio style model apiKey false openAiKey St.init =
      (Except.error (errMsg highTrafficMsg),
        St.mk [styledPrompt style prompt, styledPrompt style prompt] [] [] [] [] [5000]) := by
  have hk2 : jsTrim (jsTrim apiKey) ≠ "" := by
    rw [jsTrim_idem]
    exact hk
  have hk3 : jsTrim (jsTrim (jsTrim apiKey)) ≠ "" := by
    rw [jsTrim_idem]
    exact hk2
  have hatt1 : geminiAttempt env (styledPrompt style prompt) (jsTrim apiKey) St.init
      = (Except.error e1, St.mk [styledPrompt style prompt] [] [] [] [] []) := by
    simpa [St.init] using geminiAttempt_err hk2 h1
  have hatt2 : geminiAttempt env (styledPrompt style prompt) (jsTrim (jsTrim apiKey))
      (St.mk [styledPrompt style prompt] [] [] [] [] [5000])
      = (Except.error e2,
          St.mk [styledPrompt style prompt, styledPrompt style prompt] [] [] [] [] [5000]) := by
    simpa using geminiAttempt_err hk3 h2
  rw [show generateImage env prompt ratio style model apiKey false openAiKey St.init
      = generateImageAux env prompt ratio style model apiKey openAiKey (Nat.succ Nat.zero) St.init
      from rfl]
  rw [generateImageAux.eq_def]
  simp only [if_neg hm, hatt1, hrl1, if_true]
  rw [generateImageAux.eq_def]
  simp only [List.nil_append, if_neg hm, hatt2, hrl2, if_true]

/-- C5: a Gemini-family attempt that fails with an error classified as
invalid credential (HTTP 400 or a key-not-found message) and not as rate
limited surfaces the invalid-key error immediately, on first attempts and
on retries alike, with no wait and no prompt-repair invocation. -/
theorem generateImage_invalid_credential (env : Env) (prompt : String)
    (ratio : AspectRatio) (style : ImageStyle) (model : ImageModel)
    (apiKey : String) (isRetry : Bool) (openAiKey : Option String) (e : JsError)
    (hm : model ≠ ImageModel.dallE3)
    (hk : jsTrim apiKey ≠ "")
    (h1 : env.gemini 0 (styledPrompt style prompt) = GeminiResult.err e)
    (hrl : isRateLimitErr e = false)
    (hic : isInvalidKeyErr e = true) :
    generateImage env prompt ratio style model apiKey isRetry openAiKey St.init =
      (Except.error (errMsg invalidKeyMsg),
        St.mk [styledPrompt style prompt] [] [] [] [] []) := by
  have hk2 : jsTrim (jsTrim apiKey) ≠ "" := by
    rw [jsTrim_idem]
    exact hk
  have hatt1 : geminiAttempt env (styledPrompt style prompt) (jsTrim apiKey) St.init
      = (Except.error e, St.mk [styledPrompt style prompt] [] [] [] [] []) := by
    simpa [St.init] using geminiAttempt_err hk2 h1
  cases isRetry with
  | false =>
    rw [show generateImage env prompt ratio style model apiKey false openAiKey St.init
        = generateImageAux env prompt ratio style model apiKey openAiKey (Nat.succ Nat.zero) St.init
        from rfl]
    rw [generateImageAux.eq_def]
    simp [if_neg hm, hatt1, hrl, hic]
  | true =>
    rw [show generateImage env prompt ratio style model apiKey true openAiKey St.init
        = generateImageAux env prompt ratio style model apiKey openAiKey 0 St.init
        from rfl]
    rw [generateImageAux.eq_def]
    simp [if_neg hm, hatt1, hrl, hic]

/-- C6: a Gemini-family request with an empty or whitespace-only Gemini
credential surfaces the missing-key configuration error and no network
request of any kind is issued (no Gemini image call, no repair call, no
OpenAI call), and no wait occurs. -/
theorem generateImage_blank_credential (env : Env) (prompt : String)
    (ratio : AspectRatio) (style : ImageStyle) (model : ImageModel)
    (apiKey : String) (isRetry : Bool) (openAiKey : Option String)
    (hm : model ≠ ImageModel.dallE3)
    (hk : jsTrim apiKey = "") :
    ((generateImage env prompt ratio style model apiKey isRetry openAiKey St.init).1 =
      Except.error (errMsg missingKeyMsg))
    ∧ ((generateImage env prompt ratio style model apiKey isRetry openAiKey St.init).2.geminiImageCalls = [])
    ∧ ((generateImage env prompt ratio style model apiKey isRetry openAiKey St.init).2.fixNetworkCalls = [])
    ∧ ((generateImage env prompt ratio style model apiKey isRetry openAiKey St.init).2.openAiCalls = [])
    ∧ ((generateImage env prompt ratio style model apiKey isRetry openAiKey St.init).2.waits = []) := by
  have hk2 : jsTrim (jsTrim apiKey) = "" := by
    rw [jsTrim_idem]
    exact hk
  have hatt : geminiAttempt env (styledPrompt style prompt) (jsTrim apiKey) St.init
      = (Except.error (errMsg missingKeyMsg), St.init) := geminiAttempt_blank hk2
  have hrl0 : isRateLimitErr (errMsg missingKeyMsg) = false := by decide
  have hic0 : isInvalidKeyErr (errMsg missingKeyMsg) = false := by decide
  have hfixb : fixBlockedPrompt env prompt (jsTrim apiKey) St.init
      = (prompt, St.mk [] [prompt] [] [] [] []) := by
    simpa [St.init] using fixBlockedPrompt_blank env prompt (jsTrim apiKey) St.init hk2
  cases isRetry with
  | false =>
    have hres : generateImage env prompt ratio style model apiKey false openAiKey St.init =
        (Except.error (errMsg missingKeyMsg), St.mk [] [prompt] [] [] [] []) := by
      rw [show generateImage env prompt ratio style model apiKey false openAiKey St.init
          = generateImageAux env prompt ratio style model apiKey openAiKey (Nat.succ Nat.zero) St.init
          from rfl]
      rw [generateImageAux.eq_def]
      simp [if_neg hm, hatt, hrl0, hic0, hfixb]
    rw [hres]
    exact ⟨rfl, rfl, rfl, rfl, rfl⟩
  | true =>
    have hres : generateImage env prompt ratio style model apiKey true openAiKey St.init =
        (Except.error (errMsg missingKeyMsg), St.init) := by
      rw [show generateImage env prompt ratio style model apiKey true openAiKey St.init
          = generateImageAux env prompt ratio style model apiKey openAiKey 0 St.init
          from rfl]
      rw [generateImageAux.eq_def]
      simp [if_neg hm, hatt, hrl0, hic0]
    rw [hres]
    exact ⟨rfl, rfl, rfl, rfl, rfl⟩

/-- C1: when the first Gemini attempt of a non-retry request fails with an
error classified neither as rate limit nor as invalid credential (for
example a response with no inline image data), the prompt-repair service
is invoked with the original unstyled prompt; if the repaired prompt
differs from the original, exactly one retry is issued carrying the
repaired prompt with the style prefix re-applied; if it is identical, the
original failure is surfaced with no retry. -/
theorem generateImage_prompt_repair (env : Env) (prompt : String)
    (ratio : AspectRatio) (style : ImageStyle) (model : ImageModel)
    (apiKey : String) (openAiKey : Option String) (e : JsError)
    (hm : model ≠ ImageModel.dallE3)
    (hk : jsTrim apiKey ≠ "")
    (hfail : env.gemini 0 (styledPrompt style prompt) = GeminiResult.err e ∨
      (e = errMsg noImageMsg ∧ ∃ partsOpt,
        env.gemini 0 (styledPrompt style prompt) = GeminiResult.ok partsOpt ∧
        extractImageFromParts partsOpt = Option.none))
    (hrl : isRateLimitErr e = false)
    (hic : isInvalidKeyErr e = false) :
    ((generateImage env prompt ratio style model apiKey false openAiKey St.init).2.fixInvocations
      = [prompt])
    ∧ (fixBlockedPromptValue env prompt (jsTrim apiKey) = prompt →
        generateImage env prompt ratio style model apiKey false openAiKey St.init =
          (Except.error e,
            St.mk [styledPrompt style prompt] [prompt] [prompt] [] [] []))
    ∧ (fixBlockedPromptValue env prompt (jsTrim apiKey) ≠ prompt →
        (generateImage env prompt ratio style model apiKey false openAiKey St.init).2 =
          St.mk
            [styledPrompt style prompt,
              styledPrompt style (fixBlockedPromptValue env prompt (jsTrim apiKey))]
            [prompt] [prompt] [] [] []) := by
  have hk2 : jsTrim (jsTrim apiKey) ≠ "" := by
    rw [jsTrim_idem]
    exact hk
  have hatt : geminiAttempt env (styledPrompt style prompt) (jsTrim apiKey) St.init
      = (Except.error e, St.mk [styledPrompt style prompt] [] [] [] [] []) := by
    rcases hfail with h | ⟨he, partsOpt, h, hx⟩
    · simpa [St.init] using geminiAttempt_err hk2 h
    · subst he
      simpa [St.init] using geminiAttempt_noImage hk2 h hx
  have hfixe : fixBlockedPrompt env prompt (jsTrim apiKey)
      (St.mk [styledPrompt style prompt] [] [] [] [] [])
      = (fixBlockedPromptValue env prompt (jsTrim apiKey),
          St.mk [styledPrompt style prompt] [prompt] [prompt] [] [] []) := by
    simpa using fixBlockedPrompt_eq env prompt (jsTrim apiKey) _ hk2
  have hmain : generateImage env prompt ratio style model apiKey false openAiKey St.init =
      (if fixBlockedPromptValue env prompt (jsTrim apiKey) ≠ prompt then
        generateImageAux env (fixBlockedPromptValue env prompt (jsTrim apiKey)) ratio style
          model (jsTrim apiKey) openAiKey 0
          (St.mk [styledPrompt style prompt] [prompt] [prompt] [] [] [])
      else
        (Except.error e, St.mk [styledPrompt style prompt] [prompt] [prompt] [] [] [])) := by
    rw [show generateImage env prompt ratio style model apiKey false openAiKey St.init
        = generateImageAux env prompt ratio style model apiKey openAiKey (Nat.succ Nat.zero) St.init
        from rfl]
    rw [generateImageAux.eq_def]
    simp only [if_neg hm, hatt, hrl, hic, hfixe, Bool.false_eq_true, if_false]
  have hzero := generateImageAux_zero_gemini env
    (fixBlockedPromptValue env prompt (jsTrim apiKey)) ratio style model
    (jsTrim apiKey) openAiKey
    (St.mk [styledPrompt style prompt] [prompt] [prompt] [] [] []) hm hk2
  refine ⟨?_, ?_, ?_⟩
  · by_cases hfp : fixBlockedPromptValue env prompt (jsTrim apiKey) = prompt
    · rw [hmain, if_neg (fun hcon => hcon hfp)]
    · rw [hmain, if_pos hfp, hzero]
  · intro hfp
    rw [hmain, if_neg (fun hcon => hcon hfp)]
  · intro hfp
    rw [hmain, if_pos hfp, hzero]
    rfl

/-- C4: selecting `dall-e-3` with an absent or empty OpenAI credential
fails at once with the configuration error and issues no request of any
kind; with a nonempty OpenAI credential the call is exactly the DALL-E
client call on the styled prompt, returned directly, so the DALL-E path
never enters the rate-limit or prompt-repair logic. -/
theorem generateImage_dalle_path (env : Env) (prompt : String) (ratio : AspectRatio)
    (style : ImageStyle) (apiKey : String) (isRetry : Bool) :
    (∀ openAiKey, openAiKey = Option.none ∨ openAiKey = Option.some "" →
        generateImage env prompt ratio style ImageModel.dallE3 apiKey isRetry openAiKey St.init =
          (Except.error (errMsg openAiKeyNeededMsg), St.init))
    ∧ (∀ kk, kk ≠ "" →
        generateImage env prompt ratio style ImageModel.dallE3 apiKey isRetry (Option.some kk) St.init =
          generateOpenAIImage env (styledPrompt style prompt) ratio kk St.init) := by
  constructor
  · rintro openAiKey (rfl | rfl) <;> cases isRetry <;>
      simp [generateImage, generateImageAux.eq_def]
  · intro kk hkk
    cases isRetry <;> simp [generateImage, generateImageAux.eq_def, hkk]

/-- C7: every DALL-E generation call records exactly one HTTP request
whose size field is the fixed lookup of the aspect ratio, and that lookup
maps 1:1 to 1024x1024 and both 3:4 and 9:16 to 1024x1792. -/
theorem dalle_aspect_ratio_mapping (env : Env) (prompt : String) (ratio : AspectRatio)
    (kk : String) (s : St) (hkk : kk ≠ "") :
    ((generateOpenAIImage env prompt ratio kk s).2.openAiCalls =
      s.openAiCalls ++ [OpenAiReq.mk prompt (dalleSize ratio) (jsTrim kk)])
    ∧ dalleSize AspectRatio.r1x1 = "1024x1024"
    ∧ dalleSize AspectRatio.r3x4 = "1024x1792"
    ∧ dalleSize AspectRatio.r9x16 = "1024x1792" := by
  refine ⟨?_, by decide, by decide, by decide⟩
  cases hw : env.openai (OpenAiReq.mk prompt (dalleSize ratio) (jsTrim kk)) with
  | netErr e => simp [generateOpenAIImage, hkk, hw]
  | resp resp =>
    by_cases ho : resp.ok = true
    · cases hb : resp.b64 with
      | none => simp [generateOpenAIImage, hkk, hw, ho, hb]
      | some b =>
        by_cases hbe : b = ""
        · simp [generateOpenAIImage, hkk, hw, ho, hb, hbe]
        · simp [generateOpenAIImage, hkk, hw, ho, hb, hbe]
    · simp [generateOpenAIImage, hkk, hw, ho]

/-- C8: `generateCaption` is a total function into `String` (the
embedding of the fact that every source path returns normally, never
throwing); with a blank key it returns the fixed fallback immediately
with the trace unchanged, and whenever the caption request fails with any
thrown error, rate-limit-classified or not, it returns the same fixed
fallback with no wait and no retry of any kind. -/
theorem generateCaption_fallback (env : Env) (imagePrompt apiKey : String) (s : St) :
    (jsTrim apiKey = "" → generateCaption env imagePrompt apiKey s = (captionFallback, s))
    ∧ (∀ e, jsTrim apiKey ≠ "" → env.caption imagePrompt = TextGenResult.err e →
        generateCaption env imagePrompt apiKey s =
          (captionFallback, { s with captionCalls := s.captionCalls ++ [imagePrompt] })) := by
  constructor
  · intro hk
    simp only [generateCaption, getAiClient_blank hk]
    split <;> rfl
  · intro e hk hc
    simp only [generateCaption, getAiClient_ok hk, hc]
    split <;> rfl

/-- C9: applying the watermark with empty text is the identity on the
image, for every browser environment. -/
theorem applyWatermark_empty_text (env : WmEnv) (image : String) :
    applyWatermark env image "" = image := rfl

/-- C10: every successful DALL-E generation yields a data URI whose MIME
type is hard-coded to `image/png` whatever the payload, while the Gemini
part scan builds the data URI from the MIME type advertised in the
response. -/
theorem dalle_png_mime_hardcoded :
    (∀ (env : Env) (prompt : String) (ratio : AspectRatio) (kk : String)
        (s s2 : St) (img : String),
        generateOpenAIImage env prompt ratio kk s = (Except.ok img, s2) →
        jsStartsWith img "data:image/png;base64," = true)
    ∧ (∀ (m d : String) (ps : List Part), m ≠ "" → jsStartsWith m "image/" = true →
        findImagePart (Part.mk (Option.some (InlineData.mk (Option.some m) d)) :: ps) =
          Option.some ("data:" ++ m ++ ";base64," ++ d)) := by
  constructor
  · intro env prompt ratio kk s s2 img h
    by_cases hkk : kk = ""
    · simp [generateOpenAIImage, hkk] at h
    · cases hw : env.openai (OpenAiReq.mk prompt (dalleSize ratio) (jsTrim kk)) with
      | netErr e => simp [generateOpenAIImage, hkk, hw] at h
      | resp resp =>
        by_cases ho : resp.ok = true
        · cases hb : resp.b64 with
          | none => simp [generateOpenAIImage, hkk, hw, ho, hb] at h
          | some b =>
            by_cases hbe : b = ""
            · simp [generateOpenAIImage, hkk, hw, ho, hb, hbe] at h
            · simp [generateOpenAIImage, hkk, hw, ho, hb, hbe] at h
              rw [← h.1]
              exact jsStartsWith_append "data:image/png;base64," b
        · simp [generateOpenAIImage, hkk, hw, ho] at h
  · intro m d ps hm hsw
    simp [findImagePart, hm, hsw]

/-- Witness for the prompt-repair path at a concrete oracle: the first
call yields no image data, the repair proposes a different prompt, and
exactly one restyled retry is recorded. -/
theorem generateImage_prompt_repair_witness :
    (generateImage envRepair "p" AspectRatio.r1x1 ImageStyle.none
      ImageModel.geminiFlashImage "k" false Option.none St.init).2 =
      St.mk ["p", "a calm landscape"] ["p"] ["p"] [] [] [] :=
  (generateImage_prompt_repair envRepair "p" AspectRatio.r1x1 ImageStyle.none
    ImageModel.geminiFlashImage "k" Option.none (errMsg noImageMsg)
    (by decide) (by decide)
    (Or.inr ⟨rfl, ⟨Option.some [], rfl, rfl⟩⟩)
    (by decide) (by decide)).2.2 (by decide)

/-- Witness for the rate-limit retry at a concrete oracle answering 429
twice: one wait, two identical prompts, terminal high-traffic error. -/
theorem generateImage_rate_limited_witness :
    generateImage envRate "p" AspectRatio.r1x1 ImageStyle.none
      ImageModel.geminiFlashImage "k" false Option.none St.init =
      (Except.error (errMsg highTrafficMsg), St.mk ["p", "p"] [] [] [] [] [5000]) :=
  generateImage_rate_limited envRate "p" AspectRatio.r1x1 ImageStyle.none
    ImageModel.geminiFlashImage "k" Option.none
    (JsError.mk (Option.some 429) Option.none Option.none)
    (JsError.mk (Option.some 429) Option.none Option.none)
    (by decide) (by decide) rfl (by decide) rfl (by decide)

/-- Witness for the DALL-E routing at concrete inputs: missing OpenAI key
fails with the configuration error and an untouched trace, nonempty key
delegates to the provider client directly. -/
theorem generateImage_dalle_path_witness :
    (generateImage envRate "p" AspectRatio.r1x1 ImageStyle.none ImageModel.dallE3
      "k" false Option.none St.init = (Except.error (errMsg openAiKeyNeededMsg), St.init))
    ∧ (generateImage envRate "p" AspectRatio.r1x1 ImageStyle.none ImageModel.dallE3
      "k" false (Option.some "sk") St.init =
        generateOpenAIImage envRate "p" AspectRatio.r1x1 "sk" St.init) :=
  ⟨(generateImage_dalle_path envRate "p" AspectRatio.r1x1 ImageStyle.none "k" false).1
      Option.none (Or.inl rfl),
    (generateImage_dalle_path envRate "p" AspectRatio.r1x1 ImageStyle.none "k" false).2
      "sk" (by decide)⟩

/-- Witness for the invalid-credential branch at a concrete 400 oracle. -/
theorem generateImage_invalid_credential_witness :
    generateImage envBadKey "p" AspectRatio.r1x1 ImageStyle.none
      ImageModel.geminiFlashImage "k" false Option.none St.init =
      (Except.error (errMsg invalidKeyMsg), St.mk ["p"] [] [] [] [] []) :=
  generateImage_invalid_credential envBadKey "p" AspectRatio.r1x1 ImageStyle.none
    ImageModel.geminiFlashImage "k" false Option.none
    (JsError.mk (Option.some 400) Option.none Option.none)
    (by decide) (by decide) rfl (by decide) (by decide)

/-- Witness for the blank-credential configuration failure at a concrete
whitespace key. -/
theorem generateImage_blank_credential_witness :
    (generateImage envRate "p" AspectRatio.r1x1 ImageStyle.none
      ImageModel.geminiFlashImage "   " false Option.none St.init).1 =
      Except.error (errMsg missingKeyMsg) :=
  (generateImage_blank_credential envRate "p" AspectRatio.r1x1 ImageStyle.none
    ImageModel.geminiFlashImage "   " false Option.none (by decide) (by decide)).1

/-- Witness for the DALL-E size lookup at the 9:16 ratio. -/
theorem dalle_aspect_ratio_mapping_witness :
    (generateOpenAIImage envRate "p" AspectRatio.r9x16 "sk" St.init).2.openAiCalls =
      St.init.openAiCalls ++ [OpenAiReq.mk "p" (dalleSize AspectRatio.r9x16) (jsTrim "sk")] :=
  (dalle_aspect_ratio_mapping envRate "p" AspectRatio.r9x16 "sk" St.init (by decide)).1

/-- Witness for the caption fallback on a blank key and on a simulated
429 failure. -/
theorem generateCaption_fallback_witness :
    (generateCaption envRate "p" "   " St.init = (captionFallback, St.init))
    ∧ (generateCaption envRate "p" "k" St.init =
        (captionFallback, St.mk [] [] [] ["p"] [] [])) :=
  ⟨(generateCaption_fallback envRate "p" "   " St.init).1 (by decide),
    (generateCaption_fallback envRate "p" "k" St.init).2
      (JsError.mk (Option.some 429) Option.none Option.none) (by decide) rfl⟩

/-- Witness for the hard-coded PNG MIME type on a concrete successful
DALL-E call, and for the response-driven MIME type of the Gemini scan. -/
theorem dalle_png_mime_hardcoded_witness :
    (jsStartsWith "data:image/png;base64,QUJD" "data:image/png;base64," = true)
    ∧ (findImagePart [Part.mk (Option.some (InlineData.mk (Option.some "image/jpeg") "Wlpa"))] =
        Option.some ("data:" ++ "image/jpeg" ++ ";base64," ++ "Wlpa")) :=
  ⟨(dalle_png_mime_hardcoded).1 envRate "p" AspectRatio.r1x1 "sk" St.init
      (St.mk [] [] [] [] [OpenAiReq.mk "p" "1024x1024" "sk"] [])
      "data:image/png;base64,QUJD" rfl,
    (dalle_png_mime_hardcoded).2 "image/jpeg" "Wlpa" [] (by decide) (by decide)⟩

end InstGen
